import Mathlib

/-!
Verification of the RAG AI agent core (ingestion, query, chat, memory)
against its natural-language specification.

The Python sources are shallowly embedded: each relevant Python function
becomes a Lean function over explicit inputs.  External collaborators
(the OpenAI embedding endpoint, the Supabase store) are passed in as
environment records of pure functions; exceptions become `Except` values;
side effects (document creation/deletion, embedding calls, bulk inserts)
are returned as explicit effect traces.  Python `float` similarity scores
are modelled as exact rationals `ℚ`: every comparison the code performs
on them (`<`, `≤`) agrees with the rational order on the scores involved.
-/

namespace RagAgent

/-! ## Text utilities (src/embeddings.py `_clean_text` and Python `str.strip`) -/

/-- Python whitespace characters recognised by `str.strip` and `\s` in
`re` (space, tab, newline, carriage return, vertical tab, form feed). -/
def pyIsSpace (c : Char) : Bool :=
  c == ' ' || c == '\t' || c == '\n' || c == '\r' ||
    c == Char.ofNat 11 || c == Char.ofNat 12

/-- Python `str.strip()`: remove leading and trailing whitespace. -/
def pyStrip (s : String) : String :=
  String.mk (((s.data.dropWhile pyIsSpace).reverse.dropWhile pyIsSpace).reverse)

/-- Collapse each maximal run of whitespace to a single space, as
`re.sub(r"\s+", " ", s)` does in `_clean_text`.  The flag records
whether the previous character belonged to a whitespace run already
replaced by a space. -/
def collapseWsAux : List Char → Bool → List Char
  | [], _ => []
  | c :: cs, inRun =>
    if pyIsSpace c then
      if inRun then collapseWsAux cs true else ' ' :: collapseWsAux cs true
    else c :: collapseWsAux cs false

/-- Model of `EmbeddingGenerator._clean_text`: strip, collapse whitespace
runs to single spaces, and remove null characters. -/
def clean_text (text : String) : String :=
  if text = "" then ""
  else
    let cleaned := pyStrip text
    let cleaned := String.mk (collapseWsAux cleaned.data false)
    String.mk (cleaned.data.filter (fun c => c != Char.ofNat 0))

/-! ## Errors

Python exception values observable at the public boundary of the
embedding module: `ValueError` (the code's validation error) and
`RuntimeError` (the code's external-service/wrapping error). -/

inductive PyError
  | valueError (msg : String)
  | runtimeError (msg : String)
deriving DecidableEq, Repr

/-- Whether a single-text embedding outcome is a `ValueError`
(the code's analogue of the spec's `ValidationError`). -/
def isValidationError : Except PyError (List ℚ) → Bool
  | .error (.valueError _) => true
  | _ => false

/-! ## Embedding Client (src/embeddings.py `EmbeddingGenerator`) -/

/-- Environment for the OpenAI embedding endpoint: for each attempt
number and input, either an exception message or `response.data`
(a list of embedding vectors). -/
structure EmbedApiEnv where
  createSingle : Nat → String → Except String (List (List ℚ))
  createBatch : Nat → List String → Except String (List (List ℚ))

/-- One attempt of the single-text path: call the endpoint; an empty
`response.data` raises `RuntimeError("Empty response from OpenAI API")`,
otherwise `response.data[0].embedding` is returned. -/
def singleAttempt (env : EmbedApiEnv) (input : String) (attempt : Nat) :
    Except String (List ℚ) :=
  match env.createSingle attempt input with
  | .error msg => .error msg
  | .ok [] => .error "Empty response from OpenAI API"
  | .ok (v :: _) => .ok v

/-- The retry loop `for attempt in range(max_retries + 1)`: retry on any
exception while retries remain, re-raise the last exception otherwise.
Returns the outcome together with the number of endpoint calls made. -/
def retryLoop (call : Nat → Except String α) (attempt retriesLeft : Nat) :
    Except String α × Nat :=
  match call attempt with
  | .ok a => (.ok a, 1)
  | .error msg =>
    match retriesLeft with
    | 0 => (.error msg, 1)
    | r + 1 =>
      let p := retryLoop call (attempt + 1) r
      (p.1, p.2 + 1)

/-- Model of `EmbeddingGenerator.generate_embedding`.  Returns the
outcome together with the list of inputs actually sent to the endpoint.
Empty or whitespace-only text raises `ValueError("Text cannot be empty")`
inside the outer `try`, whose handler re-raises every exception as
`RuntimeError("Embedding generation failed: ...")`. -/
def generate_embedding (env : EmbedApiEnv) (max_retries : Nat) (text : String) :
    Except PyError (List ℚ) × List String :=
  if text = "" ∨ pyStrip text = "" then
    (.error (.runtimeError "Embedding generation failed: Text cannot be empty"), [])
  else
    let c := clean_text text
    let cleaned := if 8191 < c.length then c.take 8191 else c
    let p := retryLoop (singleAttempt env cleaned) 0 max_retries
    match p.1 with
    | .ok v => (.ok v, List.replicate p.2 cleaned)
    | .error msg =>
      (.error (.runtimeError ("Embedding generation failed: " ++ msg)),
        List.replicate p.2 cleaned)

/-- Per-text cleaning step of `generate_embeddings`: empty or
whitespace-only entries become the placeholder `""`, others are cleaned
and truncated to 8191 characters. -/
def cleanEntry (t : String) : String :=
  if t = "" ∨ pyStrip t = "" then ""
  else
    let c := clean_text t
    if 8191 < c.length then c.take 8191 else c

/-- One attempt of the batched path: the response must be non-empty and
hold exactly one embedding per sent text, otherwise
`RuntimeError("Expected ... embeddings, got ...")` is raised. -/
def batchAttempt (env : EmbedApiEnv) (inputs : List String) (attempt : Nat) :
    Except String (List (List ℚ)) :=
  match env.createBatch attempt inputs with
  | .error msg => .error msg
  | .ok data =>
    if data ≠ [] ∧ data.length = inputs.length then .ok data
    else
      .error ("Expected " ++ toString inputs.length ++ " embeddings, got "
        ++ toString data.length)

/-- Zero vector `[0.0] * dim` used for empty texts inside a batch. -/
def zeroVector (dim : Nat) : List ℚ := List.replicate dim 0

/-- Mapping the returned embeddings back onto the original positions:
the placeholder `""` yields a zero vector of the dimension of
`embeddings[0]`, every other entry consumes the next returned embedding
(`embeddings[non_empty_index]`, modelled with `getD`; on the success path
the index never runs past the end). -/
def mapBackAux (embeddings : List (List ℚ)) : List String → Nat → List (List ℚ)
  | [], _ => []
  | t :: ts, idx =>
    if t = "" then zeroVector (embeddings.headD []).length :: mapBackAux embeddings ts idx
    else embeddings.getD idx [] :: mapBackAux embeddings ts (idx + 1)

/-- The texts of a batch that are non-empty after cleaning, in order:
exactly the payload `generate_embeddings` sends to the endpoint. -/
def nonEmptyOf (texts : List String) : List String :=
  (texts.map cleanEntry).filter (fun t => t != "")

/-- Model of `EmbeddingGenerator.generate_embeddings`.  Returns the
outcome together with the list of batched payloads sent to the endpoint.
An empty input list raises `ValueError("Texts list cannot be empty")`;
a batch with no text left after cleaning raises
`ValueError("No valid texts to process")`; both are re-raised by the
outer handler as `RuntimeError("Batch embedding generation failed: ...")`. -/
def generate_embeddings (env : EmbedApiEnv) (max_retries : Nat) (texts : List String) :
    Except PyError (List (List ℚ)) × List (List String) :=
  if texts = [] then
    (.error (.runtimeError "Batch embedding generation failed: Texts list cannot be empty"), [])
  else
    let cleaned_texts := texts.map cleanEntry
    let non_empty_texts := cleaned_texts.filter (fun t => t != "")
    if non_empty_texts = [] then
      (.error (.runtimeError "Batch embedding generation failed: No valid texts to process"), [])
    else
      let p := retryLoop (batchAttempt env non_empty_texts) 0 max_retries
      match p.1 with
      | .ok embeddings =>
        (.ok (mapBackAux embeddings cleaned_texts 0), List.replicate p.2 non_empty_texts)
      | .error msg =>
        (.error (.runtimeError ("Batch embedding generation failed: " ++ msg)),
          List.replicate p.2 non_empty_texts)

/-! ## Metadata maps

Chunk metadata is a Python dict with string keys; the values the core
reads or writes are strings and numbers.  Lookup returns the most recent
binding, assignment replaces the binding for the key, matching dict
semantics for every access the code performs. -/

inductive MVal
  | str (v : String)
  | num (v : ℚ)
deriving DecidableEq, Repr

abbrev Metadata := List (String × MVal)

/-- Python dict assignment `m[k] = v`. -/
def msetKey (m : Metadata) (k : String) (v : MVal) : Metadata :=
  (k, v) :: m.filter (fun p => p.1 != k)

/-! ## Data model (src/models.py `VectorChunk`) -/

/-- Model of `models.VectorChunk` as the query and chat paths use it
(ids as abstract numerals; `embedding` and `metadata` always set on
those paths). -/
structure VectorChunk where
  id : Nat
  doc_id : Nat
  chunk_id : Nat
  content : String
  embedding : List ℚ
  metadata : Metadata
deriving DecidableEq, Repr

/-! ## Query Processor (src/query.py `QueryProcessor`) -/

/-- A row of the store's `vector_search` RPC response.  Each field the
code reads is optional: `none` models a key missing from the row dict
(reading it raises `KeyError`); `metadata` and `similarity` are read
with `.get` defaults and so never raise. -/
structure SearchRow where
  id : Option Nat
  doc_id : Option Nat
  chunk_id : Option Nat
  content : Option String
  embedding : Option (List ℚ)
  metadata : Option Metadata
  similarity : Option ℚ
deriving DecidableEq, Repr

/-- Body of the per-row `try` block of `QueryProcessor.vector_search`
after the threshold test: build a `VectorChunk` from the row's required
fields (`KeyError` if one is missing), then set
`chunk.metadata["similarity_score"] = similarity`. -/
def tryParseRow (r : SearchRow) (similarity : ℚ) : Except String VectorChunk :=
  match r.id, r.doc_id, r.chunk_id, r.content, r.embedding with
  | some i, some d, some c, some content, some emb =>
    .ok { id := i, doc_id := d, chunk_id := c, content := content, embedding := emb,
          metadata := msetKey (r.metadata.getD []) "similarity_score" (.num similarity) }
  | _, _, _, _, _ => .error "KeyError"

/-- Model of `QueryProcessor.vector_search` over the rows the store
returned (in the store's descending-similarity order).  For each row:
read `similarity` with default `0.0`, skip the row if it is below the
threshold, otherwise parse it, skipping rows whose parse raises. -/
def vector_search (threshold : ℚ) : List SearchRow → List VectorChunk
  | [] => []
  | r :: rest =>
    let similarity := r.similarity.getD 0
    if similarity < threshold then vector_search threshold rest
    else
      match tryParseRow r similarity with
      | .ok chunk => chunk :: vector_search threshold rest
      | .error _ => vector_search threshold rest

/-- Environment for the query-embedding endpoint used by
`QueryProcessor.embed_query`: input string to exception-or-`response.data`. -/
structure QueryApiEnv where
  create : String → Except String (List (List ℚ))

abbrev EmbedCache := List (String × List ℚ)

/-- Model of `QueryProcessor.embed_query`.  Returns the outcome, the
updated `_embedding_cache`, and the list of inputs sent to the endpoint.
The raw query string is used both as cache key and as endpoint input;
no cleaning or emptiness validation is applied. -/
def embed_query (env : QueryApiEnv) (cache : EmbedCache) (query : String) :
    Except String (List ℚ) × EmbedCache × List String :=
  match cache.lookup query with
  | some v => (.ok v, cache, [])
  | none =>
    match env.create query with
    | .error msg => (.error msg, cache, [query])
    | .ok [] => (.error "IndexError: list index out of range", cache, [query])
    | .ok (item :: _) => (.ok item, (query, item) :: cache, [query])

/-! ## Chat Orchestrator (src/chat.py `ChatOrchestrator._build_context_string`) -/

/-- Display name of a chunk: `chunk.metadata.get("filename", f"Document {chunk.doc_id}")`.
A numeric value is rendered with `toString` (the code never writes one). -/
def sourceName (c : VectorChunk) : String :=
  match c.metadata.lookup "filename" with
  | some (.str s) => s
  | some (.num q) => toString q
  | none => "Document " ++ toString c.doc_id

/-- Similarity of a chunk: `chunk.metadata.get("similarity_score", 0.0)`.
The code only ever stores a number under this key. -/
def simScore (c : VectorChunk) : ℚ :=
  match c.metadata.lookup "similarity_score" with
  | some (.num q) => q
  | _ => 0

/-- Zero-padding of the fractional part to three digits. -/
def pad3 (n : Nat) : String :=
  if n < 10 then "00" ++ toString n
  else if n < 100 then "0" ++ toString n
  else toString n

/-- Python `f"{q:.3f}"` on an exact rational: round the magnitude to the
nearest thousandth (ties at half a thousandth, unreachable for binary
floats, round up) and print exactly three decimal places.  The rounded
magnitude `⌊|q| * 1000 + 1/2⌋` is computed on the reduced
numerator/denominator as `(2000 * |num| + den) / (2 * den)`. -/
def fmt3 (q : ℚ) : String :=
  let m := (2000 * q.num.natAbs + q.den) / (2 * q.den)
  (if q < 0 then "-" else "") ++ toString (m / 1000) ++ "." ++ pad3 (m % 1000)

/-- One numbered context block:
`f"[Source {i}: {source} (Similarity: {similarity:.3f})]\n{chunk.content}\n"`. -/
def contextBlock (i : Nat) (c : VectorChunk) : String :=
  "[Source " ++ toString i ++ ": " ++ sourceName c ++ " (Similarity: "
    ++ fmt3 (simScore c) ++ ")]\n" ++ c.content ++ "\n"

/-- Model of `ChatOrchestrator._build_context_string`: the sentinel for
an empty list, otherwise the blocks for `enumerate(chunks, 1)` joined
with `"\n"`. -/
def build_context_string (chunks : List VectorChunk) : String :=
  if chunks = [] then "No relevant documents found."
  else
    let context_parts := (chunks.enumFrom 1).map (fun p => contextBlock p.1 p.2)
    String.intercalate "\n" context_parts

/-! ## Memory Manager (src/memory.py `ChatMemoryManager`) -/

/-- A `chat_histories` row as `_cleanup_old_messages` selects it
(`id, created_at`); only the id is observable to the delete call. -/
structure MsgRow where
  id : Nat
deriving DecidableEq, Repr

/-- Model of `ChatMemoryManager._cleanup_old_messages`.  Input: the
session's rows in the order of the query (`created_at` descending,
newest first).  Output: the ids passed to the delete call (empty when no
delete is issued).  No delete happens when the row count is at most
`memory_limit * 2`; otherwise the rows beyond index `memory_limit * 2`
(the oldest ones) are deleted. -/
def cleanup_old_messages (memory_limit : Nat) (rows : List MsgRow) : List Nat :=
  if rows = [] ∨ rows.length ≤ memory_limit * 2 then []
  else (rows.drop (memory_limit * 2)).map (fun r => r.id)

/-- One conversation turn as `store_chat_turn` persists it: a user row
and an assistant row sharing one timestamp. -/
structure TurnPair where
  userId : Nat
  aiId : Nat
deriving DecidableEq, Repr

/-- The two rows of a turn, newest-first within the session ordering. -/
def turnRows (t : TurnPair) : List MsgRow := [⟨t.aiId⟩, ⟨t.userId⟩]

/-- A session's rows newest-first, for a newest-first list of turns. -/
def sessionRows (turns : List TurnPair) : List MsgRow :=
  (turns.map turnRows).flatten

/-! ## Memory retrieval (src/memory.py `get_chat_memory` and `models.ChatMessage`) -/

/-- Python values stored in a `chat_histories` row dict. -/
inductive PyVal
  | str (v : String)
  | num (v : Nat)
  | map (v : List (String × String))
deriving DecidableEq, Repr

abbrev Record := List (String × PyVal)

/-- Model of `models.ChatMessage` (pydantic): `session_id`, `turn_index`,
`user_message` and `ai_response` are required fields; `id` and
`created_at` are optional. -/
structure ChatMessage where
  id : Option PyVal
  session_id : PyVal
  turn_index : PyVal
  user_message : PyVal
  ai_response : PyVal
  created_at : Option PyVal
deriving DecidableEq, Repr

/-- Pydantic construction `ChatMessage(**kwargs)`: fails with a
`ValidationError` when a required field is missing from the keyword
arguments; unknown keywords are ignored. -/
def chatMessageOfKwargs (kwargs : Record) : Except String ChatMessage :=
  match kwargs.lookup "session_id", kwargs.lookup "turn_index",
      kwargs.lookup "user_message", kwargs.lookup "ai_response" with
  | some sid, some ti, some um, some ar =>
    .ok { id := kwargs.lookup "id", session_id := sid, turn_index := ti,
          user_message := um, ai_response := ar, created_at := kwargs.lookup "created_at" }
  | _, _, _, _ => .error "ValidationError: field required"

/-- The per-record body of `get_chat_memory`'s loop: build the keyword
arguments exactly as memory.py lines 72-79 do (`record["id"]`,
`record["session_id"]`, `record["role"]`, `record["content"]`,
`record.get("metadata", {})`, `record["created_at"]`) and construct a
`models.ChatMessage` from them. -/
def parseHistoryRecord (record : Record) : Except String ChatMessage :=
  match record.lookup "id", record.lookup "session_id", record.lookup "role",
      record.lookup "content", record.lookup "created_at" with
  | some idv, some sid, some role, some content, some ca =>
    chatMessageOfKwargs
      [("id", idv), ("session_id", sid), ("role", role), ("content", content),
       ("metadata", (record.lookup "metadata").getD (PyVal.map [])), ("created_at", ca)]
  | _, _, _, _, _ => .error "KeyError"

/-- Model of `ChatMemoryManager.get_chat_memory`.  Input: the session's
rows ordered `created_at` descending (newest first).  The query fetches
the newest `limit * 2` rows, reverses them into chronological order,
parses each (skipping any record whose construction raises), and keeps
only the last `limit` parsed messages. -/
def get_chat_memory (memory_limit : Nat) (limitArg : Option Nat) (allRows : List Record) :
    List ChatMessage :=
  let limit := limitArg.getD memory_limit
  let fetched := allRows.take (limit * 2)
  if fetched = [] then []
  else
    let messages := fetched.reverse.foldl
      (fun acc record =>
        match parseHistoryRecord record with
        | .ok m => acc ++ [m]
        | .error _ => acc) []
    if limit < messages.length then messages.drop (messages.length - limit) else messages

/-- A row as `store_chat_turn` (and `store_user_message` /
`store_ai_response`) inserts it into `chat_histories`: keys `id`,
`session_id`, `role`, `content`, `metadata`, `created_at`. -/
def storedMessageRecord (idv sid role content : String)
    (metadata : List (String × String)) (created_at : String) : Record :=
  [("id", .str idv), ("session_id", .str sid), ("role", .str role),
   ("content", .str content), ("metadata", .map metadata), ("created_at", .str created_at)]

/-! ## Ingestion Pipeline (src/ingest.py `DocumentIngestionPipeline`) -/

/-- Result of document ingestion, `models.ConversionResult`
(`doc_id` as an abstract numeral, the dummy all-zero UUID as `0`). -/
structure ConversionResult where
  doc_id : Nat
  filename : String
  chunks_created : Nat
  conversion_status : String
  error_message : Option String := none
deriving DecidableEq, Repr

/-- Observable external actions of the ingestion pipeline, in order:
document creation/deletion in the store, embedding calls
(`generate_embeddings`, with the batch size) and bulk inserts
(`insert_vectors`, with the batch size). -/
inductive IngestEffect
  | createDoc (docId : Nat)
  | deleteDoc (docId : Nat)
  | embedCall (batchNum size : Nat)
  | insertCall (batchNum size : Nat)
deriving DecidableEq, Repr

/-- Size of an embedding call, `none` for other effects. -/
def IngestEffect.embedSize? : IngestEffect → Option Nat
  | .embedCall _ size => some size
  | _ => none

/-- Size of a bulk-insert call, `none` for other effects. -/
def IngestEffect.insertSize? : IngestEffect → Option Nat
  | .insertCall _ size => some size
  | _ => none

/-- Environment of one `ingest_document` run: outcomes of the external
collaborators.  `converted` is `none` when the converter returns no
document, `some b` when it returns one with `validate_document = b`.
`embedOk n` / `insertOk n` tell whether the embedding and storage calls
of batch number `n` (1-based) succeed; the per-chunk contextualization
(which falls back to `chunk.text` on any failure) only changes the text
payload of those calls, never their number or sizes, and is abstracted
away. -/
structure IngestEnv where
  fileExists : Bool
  converted : Option Bool
  createOk : Bool
  createErr : String
  docId : Nat
  chunks : List String
  embedOk : Nat → Bool
  insertOk : Nat → Bool

/-- Model of the loop of `_process_and_store_chunks`
(`for i in range(0, total_chunks, self.batch_size)`): process the chunk
list in slices of `batch_size`, calling the embedder and then the store
for each slice; a failed embedding skips the insert, a failed call of
either kind skips the batch and continues; the first component is
`stored_count`, the second the effect trace.  Python's `range` with step
`0` raises before iterating, modelled as an empty loop.  The first
argument is recursion fuel: one unit per loop iteration, never exhausted
when entered with the chunk count (each iteration consumes at least one
chunk). -/
def processBatchesAux (env : IngestEnv) (bs : Nat) :
    Nat → Nat → List String → Nat × List IngestEffect
  | _, _, [] => (0, [])
  | 0, _, _ :: _ => (0, [])
  | fuel + 1, batchNum, a :: as =>
    if bs = 0 then (0, [])
    else
      let batch := (a :: as).take bs
      let p := processBatchesAux env bs fuel (batchNum + 1) ((a :: as).drop bs)
      if env.embedOk batchNum then
        if env.insertOk batchNum then
          (batch.length + p.1,
            .embedCall batchNum batch.length :: .insertCall batchNum batch.length :: p.2)
        else
          (p.1, .embedCall batchNum batch.length :: .insertCall batchNum batch.length :: p.2)
      else (p.1, .embedCall batchNum batch.length :: p.2)

/-- The loop of `_process_and_store_chunks`, entered with enough fuel
for every slice (the chunk count bounds the number of iterations). -/
def processBatches (env : IngestEnv) (bs : Nat) (batchNum : Nat)
    (remaining : List String) : Nat × List IngestEffect :=
  processBatchesAux env bs remaining.length batchNum remaining

/-- Model of `_process_and_store_chunks` (its outer `try` re-raises
nothing in practice: every batch error is absorbed by the inner handler,
so the function always returns `stored_count`). -/
def process_and_store_chunks (env : IngestEnv) (bs : Nat) (chunks : List String) :
    Nat × List IngestEffect :=
  processBatches env bs 1 chunks

/-- The failed `ConversionResult` built by `ingest_document`'s outer
handler: dummy document id, zero chunks, the exception text as message. -/
def failedResult (filename msg : String) : ConversionResult :=
  { doc_id := 0, filename := filename, chunks_created := 0,
    conversion_status := "failed", error_message := some msg }

/-- Model of `DocumentIngestionPipeline.ingest_document`.  The function
is total: every internal exception is converted by the outer handler
into a failed `ConversionResult`.  On the zero-chunk path the inner
handler deletes the just-created document before re-raising.  File
paths are abstracted to the display string. -/
def ingest_document (env : IngestEnv) (bs : Nat) (filePath : String)
    (filename : Option String) : ConversionResult × List IngestEffect :=
  if env.fileExists = false then
    (failedResult (filename.getD filePath) ("File does not exist: " ++ filePath), [])
  else
    let display := filename.getD filePath
    match env.converted with
    | none => (failedResult display "Document conversion failed - no document returned", [])
    | some false => (failedResult display "Document validation failed after conversion", [])
    | some true =>
      if env.createOk = false then (failedResult display env.createErr, [])
      else if env.chunks = [] then
        (failedResult display "Document chunking produced no chunks",
          [.createDoc env.docId, .deleteDoc env.docId])
      else
        let p := process_and_store_chunks env bs env.chunks
        ({ doc_id := env.docId, filename := display, chunks_created := p.1,
           conversion_status := "success", error_message := none },
          .createDoc env.docId :: p.2)

/-- Partition of a list into consecutive slices of `bs` elements (the
last slice possibly shorter), the shape `range(0, n, bs)` slicing gives;
empty for step `0`.  Spec-side companion of `processBatches`. -/
def chunkBatchesAux (bs : Nat) : Nat → List α → List (List α)
  | _, [] => []
  | 0, _ :: _ => []
  | fuel + 1, a :: as =>
    if bs = 0 then []
    else (a :: as).take bs :: chunkBatchesAux bs fuel ((a :: as).drop bs)

/-- The slice partition, entered with enough fuel for every slice. -/
def chunkBatches (bs : Nat) (l : List α) : List (List α) :=
  chunkBatchesAux bs l.length l

/-! ## Concrete environments used by witnesses and counterexamples -/

/-- An embedding endpoint that always answers with one 1-dimensional
vector, on both the single and the batched route. -/
def envConst : EmbedApiEnv :=
  ⟨fun _ _ => .ok [[(1 : ℚ)]], fun _ _ => .ok [[(1 : ℚ)]]⟩

/-- A query-embedding endpoint that always answers `[[2]]`. -/
def envQ : QueryApiEnv := ⟨fun _ => .ok [[(2 : ℚ)]]⟩

/-- A sample retrieved chunk with a filename and a similarity score. -/
def sampleChunk : VectorChunk :=
  { id := 1, doc_id := 7, chunk_id := 0, content := "hello world",
    embedding := [],
    metadata := [("filename", .str "doc.pdf"), ("similarity_score", .num (mkRat 85 100))] }

/-! ## Spec-side descriptions for the query path (C3, C9) -/

/-- A search row holding every field `vector_search` reads. -/
def wellFormedRow (r : SearchRow) : Prop :=
  r.id.isSome ∧ r.doc_id.isSome ∧ r.chunk_id.isSome ∧ r.content.isSome
    ∧ r.embedding.isSome ∧ r.similarity.isSome

instance (r : SearchRow) : Decidable (wellFormedRow r) := by
  unfold wellFormedRow
  infer_instance

/-- A search row missing one of the required chunk fields, so that the
`VectorChunk` construction raises `KeyError`. -/
def malformedRow (r : SearchRow) : Prop :=
  r.id = none ∨ r.doc_id = none ∨ r.chunk_id = none ∨ r.content = none
    ∨ r.embedding = none

instance (r : SearchRow) : Decidable (malformedRow r) := by
  unfold malformedRow
  infer_instance

/-- The chunk a well-formed row parses to: its fields, plus the
similarity score stored into the metadata under `similarity_score`. -/
def rowChunk (r : SearchRow) : VectorChunk :=
  { id := r.id.getD 0, doc_id := r.doc_id.getD 0, chunk_id := r.chunk_id.getD 0,
    content := r.content.getD "", embedding := r.embedding.getD [],
    metadata := msetKey (r.metadata.getD []) "similarity_score" (.num (r.similarity.getD 0)) }

/-- A well-formed candidate row with the given similarity score. -/
def mkRow (n : Nat) (sim : ℚ) : SearchRow :=
  { id := some n, doc_id := some n, chunk_id := some n, content := some (toString n),
    embedding := some [1], metadata := some [], similarity := some sim }

/-- An embedding endpoint whose batched route answers two vectors. -/
def envBatch2 : EmbedApiEnv :=
  ⟨fun _ _ => .ok [[(1 : ℚ)]], fun _ _ => .ok [[(1 : ℚ)], [(2 : ℚ)]]⟩

/-- An ingestion run whose conversion succeeds but whose chunking
produces zero candidates. -/
def envZero : IngestEnv :=
  { fileExists := true, converted := some true, createOk := true,
    createErr := "create failed", docId := 42, chunks := [],
    embedOk := fun _ => true, insertOk := fun _ => true }

/-- Twenty-five chunk candidates. -/
def chunks25 : List String := List.replicate 25 "c"

/-- An ingestion run with 25 candidates whose second batch fails at the
storage call. -/
def envBatches : IngestEnv :=
  { fileExists := true, converted := some true, createOk := true,
    createErr := "create failed", docId := 7, chunks := chunks25,
    embedOk := fun _ => true, insertOk := fun n => n != 2 }

/-- A malformed candidate row: high similarity but no `content` field. -/
def rowNoContent : SearchRow :=
  { id := some 9, doc_id := some 9, chunk_id := some 9, content := none,
    embedding := some [1], metadata := some [], similarity := some (mkRat 9 10) }

/-! ## C4 — empty input to the single-text embed operation -/

/-- C4 (amended): for every text that is empty or whitespace-only,
`generate_embedding` fails — before any endpoint call and for every
endpoint behaviour — with `RuntimeError("Embedding generation failed:
Text cannot be empty")` (the internal `ValueError` re-wrapped by the
outer handler), never returning a vector and never a zero-vector
fallback; the error reaching the caller is not the `ValueError` itself. -/
theorem generate_embedding_empty_input (env : EmbedApiEnv) (max_retries : Nat)
    (text : String) (h : text = "" ∨ pyStrip text = "") :
    generate_embedding env max_retries text =
        (.error (.runtimeError "Embedding generation failed: Text cannot be empty"), [])
      ∧ isValidationError (generate_embedding env max_retries text).1 = false := by
  unfold generate_embedding
  rw [if_pos h]
  exact ⟨rfl, rfl⟩

/-- C4: the claim as stated is false on the code: for the empty text the
public outcome of `generate_embedding` is a `RuntimeError`, not the
`ValueError` that models the spec's `ValidationError` — the module's own
test (`test_generate_embedding_empty_text`) also expects `RuntimeError`. -/
theorem generate_embedding_empty_not_valueError :
    (generate_embedding envConst 3 "").1 =
        .error (.runtimeError "Embedding generation failed: Text cannot be empty")
      ∧ isValidationError (generate_embedding envConst 3 "").1 = false :=
  ⟨rfl, rfl⟩

/-- Witness for C4's amended theorem at the concrete empty text. -/
theorem generate_embedding_empty_input_witness :
    ("" = "" ∨ pyStrip "" = "")
      ∧ (generate_embedding envConst 0 "" =
            (.error (.runtimeError "Embedding generation failed: Text cannot be empty"), [])
          ∧ isValidationError (generate_embedding envConst 0 "").1 = false) :=
  ⟨Or.inl rfl, generate_embedding_empty_input envConst 0 "" (Or.inl rfl)⟩

/-! ## C6 — query embedding: raw input, exact-string memoization -/

/-- C6 (amended): `embed_query` applies none of the Embedding Client's
cleaning or empty-input validation — on a cache miss the raw query
string itself is the only input sent to the endpoint — and it memoizes
by the exact query string: after any successful call, repeating the same
query returns the same vector from the cache with no endpoint call. -/
theorem embed_query_raw_and_memoized (env : QueryApiEnv) (cache : EmbedCache)
    (q : String) :
    (cache.lookup q = none → (embed_query env cache q).2.2 = [q])
      ∧ ∀ v c' t, embed_query env cache q = (.ok v, c', t) →
          embed_query env c' q = (.ok v, c', []) := by
  constructor
  · intro hmiss
    unfold embed_query
    rw [hmiss]
    cases henv : env.create q with
    | error m => rfl
    | ok data => cases data <;> rfl
  · intro v c' t h
    cases hc : cache.lookup q with
    | some w =>
      unfold embed_query at h
      rw [hc] at h
      injection h with h1 h2
      injection h2 with h2 h3
      injection h1 with h1
      subst h1
      subst h2
      unfold embed_query
      rw [hc]
    | none =>
      unfold embed_query at h
      rw [hc] at h
      cases henv : env.create q with
      | error m =>
        rw [henv] at h
        exact absurd h (by simp)
      | ok data =>
        rw [henv] at h
        cases data with
        | nil => exact absurd h (by simp)
        | cons item rest =>
          injection h with h1 h2
          injection h2 with h2 h3
          injection h1 with h1
          subst h1
          subst h2
          unfold embed_query
          simp [List.lookup]

/-- C6: the claim as stated is false on the code: `embed_query` does not
apply the single-text path's cleaning/empty-input contract.  On the same
empty query, and with endpoints that answer every request,
`generate_embedding` rejects before calling out while `embed_query`
sends the raw empty string and returns the endpoint's vector. -/
theorem embed_query_contract_differs :
    (embed_query envQ [] "").1 = .ok [(2 : ℚ)]
      ∧ (embed_query envQ [] "").2.2 = [""]
      ∧ (generate_embedding envConst 3 "").1 =
          .error (.runtimeError "Embedding generation failed: Text cannot be empty")
      ∧ (generate_embedding envConst 3 "").2 = [] :=
  ⟨rfl, rfl, rfl, rfl⟩

/-- Witness for C6's amended theorem: the raw query is sent on a miss,
and a second identical query is served from the cache without a call. -/
theorem embed_query_raw_and_memoized_witness :
    (embed_query envQ [] "q").2.2 = ["q"]
      ∧ embed_query envQ [("q", [(2 : ℚ)])] "q" =
          (.ok [(2 : ℚ)], [("q", [(2 : ℚ)])], []) :=
  ⟨(embed_query_raw_and_memoized envQ [] "q").1 rfl,
    (embed_query_raw_and_memoized envQ [] "q").2 [(2 : ℚ)] [("q", [(2 : ℚ)])] ["q"] rfl⟩

/-! ## C7 — context string assembly -/

/-- Mapping over a numbered list is the same as tabulating with the
position offset by the starting number. -/
theorem enumFrom_map_eq_ofFn (f : Nat → α → β) (l : List α) (k : Nat) :
    (l.enumFrom k).map (fun p => f p.1 p.2) =
      List.ofFn (fun j : Fin l.length => f (k + j.1) (l.get j)) := by
  apply List.ext_getElem
  · simp
  · intro i h1 h2
    simp [List.getElem_map, List.getElem_enumFrom, List.getElem_ofFn]

/-- C7: `_build_context_string` returns exactly
`"No relevant documents found."` on the empty list; on a non-empty list
it produces one block per chunk, in input order, numbered from 1, each
block holding the chunk's filename (or `Document {id}` when absent), its
similarity score to three decimal places, and the chunk content, the
blocks joined by blank-line separators. -/
theorem build_context_string_spec :
    build_context_string [] = "No relevant documents found."
      ∧ ∀ chunks : List VectorChunk, chunks ≠ [] →
          build_context_string chunks =
            String.intercalate "\n"
              (List.ofFn fun j : Fin chunks.length =>
                "[Source " ++ toString (j.1 + 1) ++ ": " ++ sourceName (chunks.get j)
                  ++ " (Similarity: " ++ fmt3 (simScore (chunks.get j)) ++ ")]\n"
                  ++ (chunks.get j).content ++ "\n") := by
  constructor
  · rfl
  · intro chunks hne
    unfold build_context_string
    rw [if_neg hne]
    show String.intercalate "\n"
        ((chunks.enumFrom 1).map fun p => contextBlock p.1 p.2) = _
    rw [enumFrom_map_eq_ofFn contextBlock chunks 1]
    refine congrArg (String.intercalate "\n") (congrArg List.ofFn ?_)
    funext j
    unfold contextBlock
    rw [Nat.add_comm 1 (j : ℕ)]

/-- Witness for C7 on a one-chunk list, also evaluating the block to its
literal text (filename shown, score rendered `0.850`, numbering from 1). -/
theorem build_context_string_spec_witness :
    (([sampleChunk] : List VectorChunk) ≠ []
        ∧ build_context_string [sampleChunk] =
            String.intercalate "\n"
              (List.ofFn fun j : Fin ([sampleChunk] : List VectorChunk).length =>
                "[Source " ++ toString (j.1 + 1) ++ ": "
                  ++ sourceName (([sampleChunk] : List VectorChunk).get j)
                  ++ " (Similarity: " ++ fmt3 (simScore (([sampleChunk] : List VectorChunk).get j))
                  ++ ")]\n" ++ (([sampleChunk] : List VectorChunk).get j).content ++ "\n"))
      ∧ build_context_string [sampleChunk] =
          "[Source 1: doc.pdf (Similarity: 0.850)]\nhello world\n" :=
  ⟨⟨by simp, build_context_string_spec.2 [sampleChunk] (by simp)⟩, by rfl⟩

/-! ## C8 — eviction beyond the memory limit -/

/-- A session of turns contributes two stored rows per turn. -/
theorem sessionRows_cons (t : TurnPair) (ts : List TurnPair) :
    sessionRows (t :: ts) = turnRows t ++ sessionRows ts := rfl

/-- Row count of a session is twice its turn count. -/
theorem length_sessionRows (ts : List TurnPair) :
    (sessionRows ts).length = 2 * ts.length := by
  induction ts with
  | nil => rfl
  | cons t ts ih =>
    rw [sessionRows_cons, List.length_append, ih]
    simp [turnRows]
    omega

/-- Dropping `k * 2` rows of a session drops its first `k` turns. -/
theorem sessionRows_drop (ts : List TurnPair) : ∀ k : Nat,
    (sessionRows ts).drop (k * 2) = sessionRows (ts.drop k) := by
  induction ts with
  | nil => intro k; simp [sessionRows]
  | cons t ts ih =>
    intro k
    cases k with
    | zero => simp
    | succ k' =>
      have h2 : (k' + 1) * 2 = k' * 2 + 2 := by ring
      rw [h2, sessionRows_cons]
      have h3 : turnRows t ++ sessionRows ts =
          MsgRow.mk t.aiId :: MsgRow.mk t.userId :: sessionRows ts := rfl
      rw [h3]
      have h4 : ∀ (l : List MsgRow) (x y : MsgRow) (n : Nat),
          (x :: y :: l).drop (n + 2) = l.drop n := by
        intro l x y n
        rfl
      rw [h4, ih k']
      rfl

/-- C8: `_cleanup_old_messages` is a no-op when the session holds no
more turns than `memory_limit`, and otherwise deletes exactly the rows
of the turns beyond the `memory_limit` most recent ones — the oldest
turns, since the rows arrive newest-first. -/
theorem cleanup_evicts_only_beyond_limit (memory_limit : Nat) (turns : List TurnPair) :
    (turns.length ≤ memory_limit →
        cleanup_old_messages memory_limit (sessionRows turns) = [])
      ∧ cleanup_old_messages memory_limit (sessionRows turns) =
          (sessionRows (turns.drop memory_limit)).map (fun r => r.id) := by
  have hlen := length_sessionRows turns
  by_cases hle : (sessionRows turns).length ≤ memory_limit * 2
  · have hdrop : turns.drop memory_limit = [] := by
      apply List.drop_eq_nil_of_le
      omega
    constructor
    · intro _
      simp [cleanup_old_messages, hle]
    · rw [hdrop]
      have hnilmap : (sessionRows ([] : List TurnPair)).map (fun r => r.id) = [] := rfl
      rw [hnilmap]
      simp [cleanup_old_messages, hle]
  · constructor
    · intro hcon
      exact absurd (by omega) hle
    · have hcond : ¬(sessionRows turns = [] ∨
          (sessionRows turns).length ≤ memory_limit * 2) := by
        push_neg
        refine ⟨?_, by omega⟩
        intro hnil
        have h0 : (sessionRows turns).length = 0 := by rw [hnil]; rfl
        omega
      unfold cleanup_old_messages
      rw [if_neg hcond, sessionRows_drop]

/-- Witness for C8: with limit 2 a one-turn session is untouched; with
limit 1 and three turns (newest first), exactly the rows of the two
oldest turns are deleted. -/
theorem cleanup_evicts_only_beyond_limit_witness :
    (([⟨1, 2⟩] : List TurnPair).length ≤ 2
        ∧ cleanup_old_messages 2 (sessionRows [⟨1, 2⟩]) = [])
      ∧ cleanup_old_messages 1 (sessionRows [⟨1, 2⟩, ⟨3, 4⟩, ⟨5, 6⟩]) =
          (sessionRows (([⟨1, 2⟩, ⟨3, 4⟩, ⟨5, 6⟩] : List TurnPair).drop 1)).map
            (fun r => r.id)
      ∧ cleanup_old_messages 1 (sessionRows [⟨1, 2⟩, ⟨3, 4⟩, ⟨5, 6⟩]) = [4, 3, 6, 5] :=
  ⟨⟨by decide, (cleanup_evicts_only_beyond_limit 2 [⟨1, 2⟩]).1 (by decide)⟩,
    (cleanup_evicts_only_beyond_limit 1 [⟨1, 2⟩, ⟨3, 4⟩, ⟨5, 6⟩]).2, by decide⟩

/-! ## C3 and C9 — threshold filtering and malformed-row skipping -/

/-- A row with all required fields parses to its chunk, with the
similarity score written into the metadata. -/
theorem tryParseRow_of_wellFormed (r : SearchRow) (h : wellFormedRow r) :
    tryParseRow r (r.similarity.getD 0) = .ok (rowChunk r) := by
  obtain ⟨h1, h2, h3, h4, h5, _⟩ := h
  rw [Option.isSome_iff_exists] at h1 h2 h3 h4 h5
  obtain ⟨i, hi⟩ := h1
  obtain ⟨d, hd⟩ := h2
  obtain ⟨c, hc⟩ := h3
  obtain ⟨ct, hct⟩ := h4
  obtain ⟨e, he⟩ := h5
  simp [tryParseRow, rowChunk, hi, hd, hc, hct, he]

/-- A row missing a required field raises `KeyError` in the parse. -/
theorem tryParseRow_of_malformed (r : SearchRow) (h : malformedRow r) (s : ℚ) :
    tryParseRow r s = .error "KeyError" := by
  obtain ⟨i, d, c, ct, e, m, sim⟩ := r
  cases i <;> cases d <;> cases c <;> cases ct <;> cases e <;>
    first
      | rfl
      | exact absurd h (by simp [malformedRow])

/-- On well-formed rows, `vector_search` is the threshold filter
followed by the per-row parse, in the store's order. -/
theorem vector_search_eq_filter_map (threshold : ℚ) :
    ∀ rows : List SearchRow, (∀ r ∈ rows, wellFormedRow r) →
      vector_search threshold rows =
        (rows.filter (fun r => decide (threshold ≤ r.similarity.getD 0))).map rowChunk := by
  intro rows
  induction rows with
  | nil => intro _; rfl
  | cons r rest ih =>
    intro hw
    have hwr : wellFormedRow r := hw r (List.mem_cons_self r rest)
    have hR : ∀ x ∈ rest, wellFormedRow x := fun x hx => hw x (List.mem_cons_of_mem r hx)
    by_cases hlt : r.similarity.getD 0 < threshold
    · have hfalse : decide (threshold ≤ r.similarity.getD 0) = false := by
        simpa using hlt
      simp only [vector_search, if_pos hlt, List.filter_cons, hfalse]
      exact ih hR
    · have htrue : decide (threshold ≤ r.similarity.getD 0) = true :=
        decide_eq_true (not_lt.mp hlt)
      simp only [vector_search, if_neg hlt, tryParseRow_of_wellFormed r hwr,
        List.filter_cons, htrue, List.map_cons]
      rw [ih hR]
      simp

/-- C3: for every candidate list the store returns, `vector_search`
keeps exactly the candidates whose similarity is at least the threshold,
in the store's (descending-similarity) order, writes each kept
candidate's score into its chunk metadata under `similarity_score`, and
returns the empty list — not an error — when no candidate reaches the
threshold. -/
theorem vector_search_filters_by_threshold (threshold : ℚ) (rows : List SearchRow)
    (hw : ∀ r ∈ rows, wellFormedRow r) :
    vector_search threshold rows =
        (rows.filter (fun r => decide (threshold ≤ r.similarity.getD 0))).map rowChunk
      ∧ (∀ c ∈ vector_search threshold rows,
          ∃ q, c.metadata.lookup "similarity_score" = some (.num q) ∧ threshold ≤ q)
      ∧ ((∀ r ∈ rows, r.similarity.getD 0 < threshold) →
          vector_search threshold rows = []) := by
  have main := vector_search_eq_filter_map threshold rows hw
  refine ⟨main, ?_, ?_⟩
  · intro c hc
    rw [main] at hc
    obtain ⟨r, hr, rfl⟩ := List.mem_map.mp hc
    obtain ⟨_, hrsim⟩ := List.mem_filter.mp hr
    refine ⟨r.similarity.getD 0, ?_, of_decide_eq_true hrsim⟩
    simp [rowChunk, msetKey, List.lookup]
  · intro hall
    rw [main]
    have hnil : rows.filter (fun r => decide (threshold ≤ r.similarity.getD 0)) = [] := by
      rw [List.filter_eq_nil_iff]
      intro a ha
      simpa using hall a ha
    rw [hnil]
    rfl

/-- Witness for C3: the spec's example — scores 0.85, 0.75, 0.60
against threshold 0.7 keep exactly the first two, in order. -/
theorem vector_search_filters_by_threshold_witness :
    (∀ r ∈ [mkRow 1 (mkRat 85 100), mkRow 2 (mkRat 75 100), mkRow 3 (mkRat 60 100)],
        wellFormedRow r)
      ∧ vector_search (mkRat 7 10)
            [mkRow 1 (mkRat 85 100), mkRow 2 (mkRat 75 100), mkRow 3 (mkRat 60 100)] =
          ([mkRow 1 (mkRat 85 100), mkRow 2 (mkRat 75 100),
              mkRow 3 (mkRat 60 100)].filter
            (fun r => decide (mkRat 7 10 ≤ r.similarity.getD 0))).map rowChunk
      ∧ vector_search (mkRat 7 10)
            [mkRow 1 (mkRat 85 100), mkRow 2 (mkRat 75 100), mkRow 3 (mkRat 60 100)] =
          [rowChunk (mkRow 1 (mkRat 85 100)), rowChunk (mkRow 2 (mkRat 75 100))] :=
  ⟨by decide,
    (vector_search_filters_by_threshold (mkRat 7 10)
      [mkRow 1 (mkRat 85 100), mkRow 2 (mkRat 75 100), mkRow 3 (mkRat 60 100)]
      (by decide)).1,
    by decide⟩

/-- Row-by-row processing splits over list concatenation. -/
theorem vector_search_append (threshold : ℚ) :
    ∀ l1 l2 : List SearchRow,
      vector_search threshold (l1 ++ l2) =
        vector_search threshold l1 ++ vector_search threshold l2 := by
  intro l1
  induction l1 with
  | nil => intro l2; rfl
  | cons r rest ih =>
    intro l2
    by_cases hlt : r.similarity.getD 0 < threshold
    · simp only [List.cons_append, vector_search, if_pos hlt]
      exact ih l2
    · cases hp : tryParseRow r (r.similarity.getD 0) with
      | ok c =>
        simp only [List.cons_append, vector_search, if_neg hlt, hp, List.append_eq]
        rw [ih l2]
      | error e =>
        simp only [List.cons_append, vector_search, if_neg hlt, hp, List.append_eq]
        exact ih l2

/-- C9: a candidate row that cannot be parsed into a chunk (a required
field missing) is skipped: the surrounding well-formed candidates are
returned exactly as they would be without it, and the search does not
fail. -/
theorem vector_search_skips_malformed (threshold : ℚ) (pre post : List SearchRow)
    (r : SearchRow) (h : malformedRow r) :
    vector_search threshold (pre ++ r :: post) =
      vector_search threshold pre ++ vector_search threshold post := by
  rw [vector_search_append]
  congr 1
  by_cases hlt : r.similarity.getD 0 < threshold
  · simp only [vector_search, if_pos hlt]
  · simp only [vector_search, if_neg hlt, tryParseRow_of_malformed r h]

/-- Witness for C9: a row without `content`, sitting between two good
rows above the threshold, is silently dropped. -/
theorem vector_search_skips_malformed_witness :
    malformedRow rowNoContent
      ∧ vector_search (mkRat 7 10)
            ([mkRow 1 (mkRat 85 100)] ++ rowNoContent :: [mkRow 2 (mkRat 75 100)]) =
          vector_search (mkRat 7 10) [mkRow 1 (mkRat 85 100)]
            ++ vector_search (mkRat 7 10) [mkRow 2 (mkRat 75 100)] :=
  ⟨by decide,
    vector_search_skips_malformed (mkRat 7 10) [mkRow 1 (mkRat 85 100)]
      [mkRow 2 (mkRat 75 100)] rowNoContent (by decide)⟩

/-! ## C5 — batched embedding with zero-vector fill for empty texts -/

/-- The mapped-back output has one entry per cleaned input. -/
theorem mapBackAux_length (embeddings : List (List ℚ)) :
    ∀ (cleaned : List String) (idx : Nat),
      (mapBackAux embeddings cleaned idx).length = cleaned.length := by
  intro cleaned
  induction cleaned with
  | nil => intro idx; rfl
  | cons t ts ih =>
    intro idx
    by_cases h : t = "" <;> simp [mapBackAux, h, ih]

/-- Entry `i` of the mapped-back output: a zero vector when the cleaned
entry is the empty placeholder, otherwise the returned embedding whose
index counts the non-empty cleaned entries before position `i`. -/
theorem mapBackAux_get (embeddings : List (List ℚ)) :
    ∀ (cleaned : List String) (idx i : Nat) (hi : i < cleaned.length)
      (ho : i < (mapBackAux embeddings cleaned idx).length),
      (mapBackAux embeddings cleaned idx)[i] =
        if cleaned[i] = "" then zeroVector (embeddings.headD []).length
        else embeddings.getD (idx + ((cleaned.take i).filter (fun t => t != "")).length) [] := by
  intro cleaned
  induction cleaned with
  | nil =>
    intro idx i hi
    exact absurd hi (by simp)
  | cons t ts ih =>
    intro idx i hi ho
    cases i with
    | zero =>
      by_cases h : t = "" <;> simp [mapBackAux, h]
    | succ i' =>
      have hi' : i' < ts.length := by
        simpa using hi
      by_cases h : t = ""
      · have hstep : mapBackAux embeddings (t :: ts) idx =
            zeroVector (embeddings.headD []).length :: mapBackAux embeddings ts idx := by
          simp [mapBackAux, h]
        have ho' : i' < (mapBackAux embeddings ts idx).length := by
          rw [mapBackAux_length]
          exact hi'
        simp only [hstep, List.getElem_cons_succ]
        rw [ih idx i' hi' ho']
        simp [h, List.take_succ_cons, List.filter_cons]
      · have hstep : mapBackAux embeddings (t :: ts) idx =
            embeddings.getD idx [] :: mapBackAux embeddings ts (idx + 1) := by
          simp [mapBackAux, h]
        have ho' : i' < (mapBackAux embeddings ts (idx + 1)).length := by
          rw [mapBackAux_length]
          exact hi'
        simp only [hstep, List.getElem_cons_succ]
        rw [ih (idx + 1) i' hi' ho']
        have hidx : idx + 1 + (List.filter (fun s => s != "") (List.take i' ts)).length
            = idx + ((List.filter (fun s => s != "") (List.take i' ts)).length + 1) := by
          omega
        simp [h, List.take_succ_cons, List.filter_cons, hidx]

/-- C5 (amended): for a list of texts with at least one entry that is
non-empty after cleaning, when the endpoint answers the (single) batched
call with one vector per sent text, the result has exactly one vector
per input text in input order; empty or whitespace-only texts are not
part of the sent payload and receive zero vectors at their positions,
while the others receive the returned embeddings in order.  (A list
whose entries are all empty after cleaning instead fails with a wrapped
`ValueError("No valid texts to process")` — see the counterexample.) -/
theorem generate_embeddings_zero_fill (env : EmbedApiEnv) (max_retries : Nat)
    (texts : List String) (data : List (List ℚ))
    (h1 : texts ≠ []) (h2 : nonEmptyOf texts ≠ [])
    (h3 : env.createBatch 0 (nonEmptyOf texts) = .ok data)
    (h4 : data.length = (nonEmptyOf texts).length) :
    ∃ out,
      generate_embeddings env max_retries texts = (.ok out, [nonEmptyOf texts])
        ∧ out.length = texts.length
        ∧ "" ∉ nonEmptyOf texts
        ∧ (∀ (i : Nat) (hi : i < texts.length) (ho : i < out.length),
            (texts[i] = "" ∨ pyStrip texts[i] = "") →
              out[i] = zeroVector (data.headD []).length)
        ∧ (∀ (i : Nat) (hi : i < texts.length) (ho : i < out.length),
            cleanEntry texts[i] ≠ "" →
              out[i] = data.getD (nonEmptyOf (texts.take i)).length []) := by
  have hfilter : ¬((texts.map cleanEntry).filter (fun t => t != "") = []) := by
    simpa [nonEmptyOf] using h2
  have hdata_ne : data ≠ [] := by
    intro hnil
    rw [hnil] at h4
    exact h2 (List.eq_nil_of_length_eq_zero h4.symm)
  have hcall : batchAttempt env (nonEmptyOf texts) 0 = .ok data := by
    unfold batchAttempt
    rw [h3]
    dsimp only
    rw [if_pos ⟨hdata_ne, h4⟩]
  have hloop : retryLoop (batchAttempt env (nonEmptyOf texts)) 0 max_retries =
      (.ok data, 1) := by
    unfold retryLoop
    rw [hcall]
  have hmain : generate_embeddings env max_retries texts =
      (.ok (mapBackAux data (texts.map cleanEntry) 0), [nonEmptyOf texts]) := by
    unfold generate_embeddings
    rw [if_neg h1]
    show (if (texts.map cleanEntry).filter (fun t => t != "") = [] then _ else _) = _
    rw [if_neg hfilter]
    show (match (retryLoop (batchAttempt env (nonEmptyOf texts)) 0 max_retries).1 with
      | Except.ok embeddings =>
        (Except.ok (mapBackAux embeddings (texts.map cleanEntry) 0),
          List.replicate (retryLoop (batchAttempt env (nonEmptyOf texts)) 0 max_retries).2
            (nonEmptyOf texts))
      | Except.error msg =>
        (Except.error (PyError.runtimeError ("Batch embedding generation failed: " ++ msg)),
          List.replicate (retryLoop (batchAttempt env (nonEmptyOf texts)) 0 max_retries).2
            (nonEmptyOf texts))) = _
    rw [hloop]
    rfl
  refine ⟨mapBackAux data (texts.map cleanEntry) 0, hmain, ?_, ?_, ?_, ?_⟩
  · rw [mapBackAux_length]
    simp
  · intro hmem
    obtain ⟨-, habs⟩ := List.mem_filter.mp hmem
    simp at habs
  · intro i hi ho
    intro hempty
    have hmap : i < (texts.map cleanEntry).length := by simpa using hi
    rw [mapBackAux_get data (texts.map cleanEntry) 0 i hmap ho]
    have hget : (texts.map cleanEntry)[i] = cleanEntry texts[i] := by
      simp
    rw [hget]
    have hcl : cleanEntry texts[i] = "" := by
      unfold cleanEntry
      rw [if_pos hempty]
    rw [if_pos hcl]
  · intro i hi ho hne
    have hmap : i < (texts.map cleanEntry).length := by simpa using hi
    rw [mapBackAux_get data (texts.map cleanEntry) 0 i hmap ho]
    have hget : (texts.map cleanEntry)[i] = cleanEntry texts[i] := by
      simp
    rw [hget, if_neg hne]
    have hcount : ((texts.map cleanEntry).take i).filter (fun t => t != "") =
        nonEmptyOf (texts.take i) := by
      unfold nonEmptyOf
      rw [List.map_take]
    rw [hcount]
    simp

/-- C5: the claim as stated (for every non-empty list of texts) is false
on the code: on the non-empty list `[""]` the batch embed operation
fails with the wrapped `ValueError("No valid texts to process")` —
without calling the endpoint — instead of returning a zero vector. -/
theorem generate_embeddings_all_empty_fails :
    generate_embeddings envConst 3 [""] =
      (.error (.runtimeError "Batch embedding generation failed: No valid texts to process"),
        []) := by
  rfl

/-- Witness for C5 on `["hi", "", "yo"]`: one call carrying the two
cleaned non-empty texts, zero vector in the middle position, the two
returned embeddings at the outer positions. -/
theorem generate_embeddings_zero_fill_witness :
    (["hi", "", "yo"] ≠ ([] : List String))
      ∧ nonEmptyOf ["hi", "", "yo"] ≠ []
      ∧ envBatch2.createBatch 0 (nonEmptyOf ["hi", "", "yo"]) =
          .ok [[(1 : ℚ)], [(2 : ℚ)]]
      ∧ ([[(1 : ℚ)], [(2 : ℚ)]] : List (List ℚ)).length =
          (nonEmptyOf ["hi", "", "yo"]).length
      ∧ ∃ out,
          generate_embeddings envBatch2 3 ["hi", "", "yo"] =
              (.ok out, [nonEmptyOf ["hi", "", "yo"]])
            ∧ out.length = (["hi", "", "yo"] : List String).length
            ∧ "" ∉ nonEmptyOf ["hi", "", "yo"]
            ∧ (∀ (i : Nat) (hi : i < (["hi", "", "yo"] : List String).length)
                (ho : i < out.length),
                ((["hi", "", "yo"] : List String)[i] = ""
                    ∨ pyStrip (["hi", "", "yo"] : List String)[i] = "") →
                  out[i] =
                    zeroVector (([[(1 : ℚ)], [(2 : ℚ)]] : List (List ℚ)).headD []).length)
            ∧ (∀ (i : Nat) (hi : i < (["hi", "", "yo"] : List String).length)
                (ho : i < out.length),
                cleanEntry (["hi", "", "yo"] : List String)[i] ≠ "" →
                  out[i] =
                    ([[(1 : ℚ)], [(2 : ℚ)]] : List (List ℚ)).getD
                      (nonEmptyOf ((["hi", "", "yo"] : List String).take i)).length []) :=
  ⟨by decide, by decide, rfl, by decide,
    generate_embeddings_zero_fill envBatch2 3 ["hi", "", "yo"] [[(1 : ℚ)], [(2 : ℚ)]]
      (by decide) (by decide) rfl (by decide)⟩

/-! ## C1 — zero-chunk ingestion: rollback, failed result, no escape -/

/-- C1: whenever the file exists, conversion and validation succeed, the
document record is created, and chunking produces zero candidates,
`ingest_document` returns a Conversion Result with status `failed` and
an error message, and its store actions are exactly creating and then
deleting that document; moreover on every input whatsoever the entry
point returns a result object whose status is `success` or `failed` —
no exception escapes it. -/
theorem ingest_zero_chunks_rolls_back (env : IngestEnv) (bs : Nat) (filePath : String)
    (filename : Option String) :
    ((env.fileExists = true → env.converted = some true → env.createOk = true →
        env.chunks = [] →
        ((ingest_document env bs filePath filename).1.conversion_status = "failed"
          ∧ (ingest_document env bs filePath filename).1.error_message.isSome = true
          ∧ (ingest_document env bs filePath filename).2 =
              [.createDoc env.docId, .deleteDoc env.docId])))
      ∧ ((ingest_document env bs filePath filename).1.conversion_status = "success"
          ∨ (ingest_document env bs filePath filename).1.conversion_status = "failed") := by
  constructor
  · intro hfe hconv hcreate hchunks
    simp [ingest_document, hfe, hconv, hcreate, hchunks, failedResult]
  · unfold ingest_document
    by_cases hfe : env.fileExists = false
    · rw [if_pos hfe]
      right
      rfl
    · rw [if_neg hfe]
      cases hconv : env.converted with
      | none =>
        right
        rfl
      | some b =>
        cases b with
        | false =>
          right
          rfl
        | true =>
          dsimp only
          by_cases hco : env.createOk = false
          · rw [if_pos hco]
            right
            rfl
          · rw [if_neg hco]
            by_cases hch : env.chunks = []
            · rw [if_pos hch]
              right
              rfl
            · rw [if_neg hch]
              left
              rfl

/-- Witness for C1 at a concrete zero-chunk run: status failed, error
message present, and a create followed by a delete of document 42. -/
theorem ingest_zero_chunks_rolls_back_witness :
    (envZero.fileExists = true ∧ envZero.converted = some true
        ∧ envZero.createOk = true ∧ envZero.chunks = [])
      ∧ ((ingest_document envZero 10 "doc.pdf" none).1.conversion_status = "failed"
          ∧ (ingest_document envZero 10 "doc.pdf" none).1.error_message.isSome = true
          ∧ (ingest_document envZero 10 "doc.pdf" none).2 =
              [.createDoc envZero.docId, .deleteDoc envZero.docId]) :=
  ⟨⟨rfl, rfl, rfl, rfl⟩,
    (ingest_zero_chunks_rolls_back envZero 10 "doc.pdf" none).1 rfl rfl rfl rfl⟩

/-! ## C2 — batch partition, skip-on-failure, stored count -/

/-- The inductive heart of C2, over the loop fuel: the embedding calls
are one per slice with the slice sizes in order; the storage calls are
one per slice whose embedding succeeded; the stored count sums the sizes
of the slices whose embedding and storage both succeeded. -/
theorem processBatchesAux_spec (env : IngestEnv) (bs : Nat) (hbs : 0 < bs) :
    ∀ (fuel : Nat) (rem : List String), rem.length ≤ fuel → ∀ k : Nat,
      ((processBatchesAux env bs fuel k rem).2.filterMap IngestEffect.embedSize?
          = (chunkBatchesAux bs fuel rem).map List.length)
        ∧ ((processBatchesAux env bs fuel k rem).2.filterMap IngestEffect.insertSize?
          = ((chunkBatchesAux bs fuel rem).enumFrom k).filterMap
              (fun p => if env.embedOk p.1 then some p.2.length else none))
        ∧ ((processBatchesAux env bs fuel k rem).1
          = (((chunkBatchesAux bs fuel rem).enumFrom k).map
              (fun p => if env.embedOk p.1 && env.insertOk p.1 then p.2.length else 0)).sum) := by
  intro fuel
  induction fuel with
  | zero =>
    intro rem hlen k
    have hnil : rem = [] := List.eq_nil_of_length_eq_zero (Nat.le_zero.mp hlen)
    subst hnil
    exact ⟨rfl, rfl, rfl⟩
  | succ n ih =>
    intro rem hlen k
    cases rem with
    | nil => exact ⟨rfl, rfl, rfl⟩
    | cons a as =>
      have hbs' : bs ≠ 0 := Nat.pos_iff_ne_zero.mp hbs
      have hlen' : ((a :: as).drop bs).length ≤ n := by
        simp only [List.length_drop, List.length_cons]
        simp only [List.length_cons] at hlen
        omega
      obtain ⟨ih1, ih2, ih3⟩ := ih ((a :: as).drop bs) hlen' (k + 1)
      by_cases he : env.embedOk k
      · by_cases hins : env.insertOk k
        · refine ⟨?_, ?_, ?_⟩ <;>
            simp [processBatchesAux, chunkBatchesAux, hbs', he, hins,
              List.filterMap_cons, List.enumFrom, IngestEffect.embedSize?,
              IngestEffect.insertSize?, ih1, ih2, ih3]
        · refine ⟨?_, ?_, ?_⟩ <;>
            simp [processBatchesAux, chunkBatchesAux, hbs', he, hins,
              List.filterMap_cons, List.enumFrom, IngestEffect.embedSize?,
              IngestEffect.insertSize?, ih1, ih2, ih3]
      · refine ⟨?_, ?_, ?_⟩ <;>
          simp [processBatchesAux, chunkBatchesAux, hbs', he,
            List.filterMap_cons, List.enumFrom, IngestEffect.embedSize?,
            IngestEffect.insertSize?, ih1, ih2, ih3]

/-- C2: with a positive batch size, `_process_and_store_chunks` issues
one embedding call per consecutive slice of `batch_size` candidates, in
index order and with the slice sizes (the last slice possibly shorter);
a storage call follows exactly for the batches whose embedding call
succeeded; a failed batch is skipped while processing continues; and the
stored count — reported as `chunks_created` by `ingest_document` on the
success path — is the sum of the sizes of the batches whose embedding
and storage calls both succeeded. -/
theorem ingestion_batch_partition (env : IngestEnv) (bs : Nat) (hbs : 0 < bs)
    (filePath : String) (filename : Option String) :
    ((process_and_store_chunks env bs env.chunks).2.filterMap IngestEffect.embedSize?
        = (chunkBatches bs env.chunks).map List.length)
      ∧ ((process_and_store_chunks env bs env.chunks).2.filterMap IngestEffect.insertSize?
        = ((chunkBatches bs env.chunks).enumFrom 1).filterMap
            (fun p => if env.embedOk p.1 then some p.2.length else none))
      ∧ ((process_and_store_chunks env bs env.chunks).1
        = (((chunkBatches bs env.chunks).enumFrom 1).map
            (fun p => if env.embedOk p.1 && env.insertOk p.1 then p.2.length else 0)).sum)
      ∧ (env.fileExists = true → env.converted = some true → env.createOk = true →
          env.chunks ≠ [] →
          (ingest_document env bs filePath filename).1.chunks_created
            = (process_and_store_chunks env bs env.chunks).1) := by
  obtain ⟨s1, s2, s3⟩ :=
    processBatchesAux_spec env bs hbs env.chunks.length env.chunks le_rfl 1
  refine ⟨s1, s2, s3, ?_⟩
  intro hfe hconv hcreate hchunks
  simp [ingest_document, hfe, hconv, hcreate, hchunks]

/-- Witness for C2: 25 candidates with batch size 10 give embedding
calls of sizes [10, 10, 5]; with the second batch failing at storage,
all three inserts are attempted and the stored count is 10 + 5 = 15. -/
theorem ingestion_batch_partition_witness :
    0 < 10
      ∧ ((process_and_store_chunks envBatches 10 envBatches.chunks).2.filterMap
            IngestEffect.embedSize?
          = (chunkBatches 10 envBatches.chunks).map List.length)
      ∧ ((process_and_store_chunks envBatches 10 envBatches.chunks).2.filterMap
            IngestEffect.embedSize? = [10, 10, 5])
      ∧ ((process_and_store_chunks envBatches 10 envBatches.chunks).1
          = (((chunkBatches 10 envBatches.chunks).enumFrom 1).map
              (fun p =>
                if envBatches.embedOk p.1 && envBatches.insertOk p.1 then p.2.length
                else 0)).sum)
      ∧ (process_and_store_chunks envBatches 10 envBatches.chunks).1 = 15 :=
  ⟨by decide,
    (ingestion_batch_partition envBatches 10 (by decide) "f.pdf" none).1,
    by decide,
    (ingestion_batch_partition envBatches 10 (by decide) "f.pdf" none).2.2.1,
    by decide⟩

/-! ## C10 — history retrieval (code bug: model mismatch) -/

/-- Rows written by `store_chat_turn` never parse: the keyword arguments
built on memory.py lines 72-79 carry `role`/`content`, while
`models.ChatMessage` requires `turn_index`, `user_message` and
`ai_response`, so the construction fails for every row. -/
theorem parseHistoryRecord_stored (idv sid role content : String)
    (metadata : List (String × String)) (created_at : String) :
    parseHistoryRecord (storedMessageRecord idv sid role content metadata created_at) =
      .error "ValidationError: field required" := rfl

/-- The message-collecting fold adds nothing when every record is a
stored-message row. -/
theorem foldl_parse_all_stored :
    ∀ (rows : List Record) (acc : List ChatMessage),
      (∀ r ∈ rows, ∃ i s ro c m ca, r = storedMessageRecord i s ro c m ca) →
      rows.foldl (fun acc record =>
        match parseHistoryRecord record with
        | .ok m => acc ++ [m]
        | .error _ => acc) acc = acc := by
  intro rows
  induction rows with
  | nil => intro acc _; rfl
  | cons r rest ih =>
    intro acc hall
    obtain ⟨i, s, ro, c, m, ca, rfl⟩ := hall r (List.mem_cons_self r rest)
    simp only [List.foldl_cons, parseHistoryRecord_stored]
    exact ih acc (fun x hx => hall x (List.mem_cons_of_mem _ hx))

/-- C10 (code bug): the windowing the claim describes (fetch the newest
`limit * 2` rows, reverse to chronological order, keep the last `limit`
parsed messages) is what `get_chat_memory` attempts, but on rows written
by this module's own `store_chat_turn` every per-row `ChatMessage`
construction fails — `models.ChatMessage` requires `turn_index`,
`user_message`, `ai_response`, which the rows do not carry — is caught,
and is skipped, so the function returns the empty list for every
session, never the `limit` most recent messages its docstring and test
expect. -/
theorem get_chat_memory_always_empty (memory_limit : Nat) (limitArg : Option Nat)
    (allRows : List Record)
    (hrows : ∀ r ∈ allRows, ∃ i s ro c m ca, r = storedMessageRecord i s ro c m ca) :
    get_chat_memory memory_limit limitArg allRows = [] := by
  unfold get_chat_memory
  dsimp only
  by_cases hfet : allRows.take (limitArg.getD memory_limit * 2) = []
  · rw [if_pos hfet]
  · rw [if_neg hfet]
    have hstored : ∀ r ∈ (allRows.take (limitArg.getD memory_limit * 2)).reverse,
        ∃ i s ro c m ca, r = storedMessageRecord i s ro c m ca := by
      intro r hr
      rw [List.mem_reverse] at hr
      exact hrows r (List.mem_of_mem_take hr)
    rw [foldl_parse_all_stored _ [] hstored]
    simp

/-- Witness for C10: a session holding one stored turn (two rows exactly
as `store_chat_turn` writes them) with limit 5 yields no messages. -/
theorem get_chat_memory_always_empty_witness :
    (∀ r ∈ [storedMessageRecord "m2" "s" "assistant" "yo" [] "t2",
          storedMessageRecord "m1" "s" "user" "hi" [] "t1"],
        ∃ i s ro c m ca, r = storedMessageRecord i s ro c m ca)
      ∧ get_chat_memory 5 (some 5)
          [storedMessageRecord "m2" "s" "assistant" "yo" [] "t2",
            storedMessageRecord "m1" "s" "user" "hi" [] "t1"] = [] := by
  have h : ∀ r ∈ [storedMessageRecord "m2" "s" "assistant" "yo" [] "t2",
        storedMessageRecord "m1" "s" "user" "hi" [] "t1"],
      ∃ i s ro c m ca, r = storedMessageRecord i s ro c m ca := by
    intro r hr
    rcases List.mem_cons.mp hr with rfl | hr2
    · exact ⟨"m2", "s", "assistant", "yo", [], "t2", rfl⟩
    · rcases List.mem_cons.mp hr2 with rfl | h3
      · exact ⟨"m1", "s", "user", "hi", [], "t1", rfl⟩
      · exact absurd h3 (by simp)
  exact ⟨h, get_chat_memory_always_empty 5 (some 5) _ h⟩

end RagAgent
